import Mathlib

/-!
Verification of the Kraft-Heinz QC reconciliation engine (`src/app.py`,
class `StreamlitExcelComparator`) against its design specification.

The Python code is shallowly embedded: each method becomes a Lean
definition over an explicit model of the Python/pandas scalar values it
manipulates.  Machine floats are modelled as rationals extended with a
NaN element (`Flt`), which is faithful for the finite values and the
NaN-propagation / NaN-comparison behaviour the claims depend on.
-/

namespace KraftHeinzQC

instance {ε α : Type} [DecidableEq ε] [DecidableEq α] : DecidableEq (Except ε α)
  | .ok a, .ok b =>
    if h : a = b then isTrue (by rw [h]) else isFalse (by intro hh; cases hh; exact h rfl)
  | .error a, .error b =>
    if h : a = b then isTrue (by rw [h]) else isFalse (by intro hh; cases hh; exact h rfl)
  | .ok _, .error _ => isFalse (by intro h; cases h)
  | .error _, .ok _ => isFalse (by intro h; cases h)

/-- Model of a pandas cell value as read from an Excel sheet: the Python
`None` object, the float `NaN` (pandas' missing marker), a finite number
(int or float, modelled as a rational), or a string. -/
inductive PyVal where
  | none : PyVal
  | nan : PyVal
  | num : ℚ → PyVal
  | str : String → PyVal
deriving Repr, DecidableEq

/-- A Python float value: either NaN or a finite rational.  (Infinities
and signed zeros never arise in the embedded code paths.) -/
inductive Flt where
  | nan : Flt
  | fin : ℚ → Flt
deriving Repr, DecidableEq

/-- Absolute value on rationals, written so the kernel evaluates it. -/
def ratAbs (q : ℚ) : ℚ := if q < 0 then -q else q

/-- Absolute value on floats: `abs NaN = NaN`. -/
def fltAbs : Flt → Flt
  | .nan => .nan
  | .fin q => .fin (ratAbs q)

/-- Subtraction on floats: any NaN operand yields NaN. -/
def fltSub : Flt → Flt → Flt
  | .fin a, .fin b => .fin (a - b)
  | _, _ => .nan

/-- Python `x > t` for a float `x` and finite threshold `t`:
`NaN > t` is `False`. -/
def fltGt (x : Flt) (t : ℚ) : Bool :=
  match x with
  | .nan => false
  | .fin q => t < q

/-- Model of `pd.isna` on a cell value: `None` and `NaN` are missing. -/
def pdIsna : PyVal → Bool
  | .none => true
  | .nan => true
  | _ => false

/-- Python truthiness of a cell value: `None`, `0` and `""` are falsy;
NaN is truthy (it is a nonzero float). -/
def pyTruthy : PyVal → Bool
  | .none => false
  | .nan => true
  | .num q => q ≠ 0
  | .str s => s ≠ ""

/-- Model of the Python expression `v or 0`: `v` itself when truthy,
otherwise the int `0`. -/
def pyOrZero (v : PyVal) : PyVal :=
  if pyTruthy v then v else .num 0

/-- Decimal literal parser modelling the Python builtin `float(s)` on the
simple numeric strings that occur in the data: optional sign, digits,
optional fractional part.  Anything else fails (raises `ValueError`). -/
def parseDigits : List Char → Option ℕ
  | [] => Option.none
  | cs => cs.foldlM (fun acc c =>
      if c.isDigit then Option.some (acc * 10 + (c.toNat - '0'.toNat)) else Option.none) 0

/-- Fractional part: digits after the decimal point, as a rational in `[0,1)`. -/
def parseFrac : List Char → Option ℚ
  | [] => Option.none
  | cs => (parseDigits cs).map (fun n => (n : ℚ) / (((10 : ℕ) ^ cs.length : ℕ) : ℚ))

/-- Parse an unsigned decimal string (`"12"`, `"12.5"`, `".5"`, `"12."`). -/
def parseUnsigned (cs : List Char) : Option ℚ :=
  match cs.splitOn '.' with
  | [whole] => (parseDigits whole).map (fun n => (n : ℚ))
  | [whole, frac] =>
    match whole, frac with
    | [], [] => Option.none
    | [], f => parseFrac f
    | w, [] => (parseDigits w).map (fun n => (n : ℚ))
    | w, f => do
      let n ← parseDigits w
      let q ← parseFrac f
      Option.some ((n : ℚ) + q)
  | _ => Option.none

/-- Model of `float(s)` for strings. -/
def parseFloat? (s : String) : Option ℚ :=
  match s.toList with
  | '-' :: rest => (parseUnsigned rest).map (fun q => -q)
  | '+' :: rest => parseUnsigned rest
  | cs => parseUnsigned cs

/-- Model of the Python builtin `float(v)`: numbers convert to themselves,
NaN stays NaN, `None` raises `TypeError`, strings are parsed or raise
`ValueError`.  `Except.error` models the raised exception. -/
def pyFloat : PyVal → Except Unit Flt
  | .num q => .ok (.fin q)
  | .nan => .ok .nan
  | .none => .error ()
  | .str s =>
    match parseFloat? s with
    | Option.some q => .ok (.fin q)
    | Option.none => .error ()

/-- Model of Python `v1 == v2` on cell values (so `!pyEq` is `v1 != v2`):
values of different types are unequal, `NaN == NaN` is `False`,
string equality is case-sensitive. -/
def pyEq : PyVal → PyVal → Bool
  | .num a, .num b => a == b
  | .str a, .str b => a == b
  | .none, .none => true
  | _, _ => false

/-- Embedding of `StreamlitExcelComparator.compare_values` (app.py lines
165-177).  Returns Python's `(is_different, difference)` pair, where
`is_different` is `None` / `True` / `False` (modelled as `Option Bool`)
and `difference` is a float.  `Except.error` models an uncaught exception
(only possible in the one-sided-missing branch, where `float` is called
outside the `try`). -/
def compare_values (threshold : ℚ) (val1 val2 : PyVal) :
    Except Unit (Option Bool × Flt) :=
  if pdIsna val1 && pdIsna val2 then
    .ok (Option.none, .fin 0)
  else if pdIsna val1 || pdIsna val2 then do
    let f1 ← pyFloat (pyOrZero val1)
    let f2 ← pyFloat (pyOrZero val2)
    .ok (Option.some true, fltAbs (fltSub f1 f2))
  else
    match pyFloat val1, pyFloat val2 with
    | .ok f1, .ok f2 =>
      let diff := fltAbs (fltSub f1 f2)
      .ok (Option.some (fltGt diff threshold), diff)
    | _, _ =>
      .ok (Option.some (!pyEq val1 val2), .fin 0)

/-- Default threshold from `StreamlitExcelComparator.__init__`: the float
literal `0.01`, as an exact rational. -/
def defaultThreshold : ℚ := mkRat 1 100

/-! ## Configuration catalog and filename matching -/

/-- One entry of `BUILT_IN_MAPPINGS`: the pattern name (dict key), the
`geographies` list and the `prod_hier_filter` value. -/
structure MappingEntry where
  name : String
  geographies : List String
  prod_hier_filter : String
deriving Repr, DecidableEq

/-- Embedding of the `BUILT_IN_MAPPINGS` dict (app.py lines 10-81), in
Python dict insertion order. -/
def BUILT_IN_MAPPINGS : List MappingEntry := [
  { name := "APROTEICI",
    geographies := [
      "Hypermarkets (7011)",
      "SSS (7013)",
      "Supermarkets (7012)",
      "Total Generalist Online (6100)",
      "Total Italy (inc. Discount) (7406)",
      "Total Italy + Pharma (4380)",
      "Total Italy Hyper+Super+Pharma (4301)",
      "Total Italy Pharma (3930)",
      "Total Italy+Pharma+Online (4397)"],
    prod_hier_filter := "01-APROTEICO_3" },
  { name := "INFANZIA",
    geographies := [
      "Discount (58)",
      "Hypermarkets (7011)",
      "SSS (7013)",
      "Supermarkets (7012)",
      "Total Generalist Online (6100)",
      "Total Italy (inc. Discount) (7406)",
      "Total Italy + Pharma (4380)",
      "Total Italy Hyper+Super+Pharma (4301)",
      "Total Italy Pharma (3930)",
      "Total Italy+Pharma+Online (4397)",
      "Traditionals (incl. Microm. <100mq) (7425)"],
    prod_hier_filter := "02-CATEGORY_1" },
  { name := "Sauces",
    geographies := [
      "Discount (58)",
      "Hypermarkets (7011)",
      "SSS (7013)",
      "Supermarkets (7012)",
      "Total Generalist Online (6100)",
      "Total Italy (inc. Discount) (7406)",
      "Traditionals (incl. Microm. <100mq) (7425)"],
    prod_hier_filter := "01-CATEGORY_8" },
  { name := "SALSE",
    geographies := [
      "Discount (58)",
      "Hypermarkets (7011)",
      "SSS (7013)",
      "Supermarkets (7012)",
      "Total Generalist Online (6100)",
      "Total Italy (inc. Discount) (7406)",
      "Traditionals (incl. Microm. <100mq) (7425)"],
    prod_hier_filter := "02-CATEGORY_1" },
  { name := "GLUTINE",
    geographies := [
      "Discount (58)",
      "Hypermarkets (7011)",
      "SSS (7013)",
      "Supermarkets (7012)",
      "Total Generalist Online (6100)",
      "Total Italy (inc. Discount) (7406)",
      "Total Italy + Pharma (4380)",
      "Total Italy Hyper+Super+Pharma (4301)",
      "Total Italy Pharma (3930)",
      "Total Italy+Pharma+Online (4397)",
      "Traditionals (incl. Microm. <100mq) (7425)"],
    prod_hier_filter := "01-SENZA_GLUTINE_4" }]

/-- The catalog keys in declaration order, as iterated by
`self.mappings.keys()`. -/
def mappingKeys : List String := BUILT_IN_MAPPINGS.map MappingEntry.name

/-- Look up a pattern in the catalog (`self.mappings[pattern]`). -/
def mappingEntry? (pattern : String) : Option MappingEntry :=
  BUILT_IN_MAPPINGS.find? (fun e => e.name == pattern)

/-- Python `str.upper` restricted to ASCII, which covers every catalog
name and filename involved. -/
def pyUpper (s : String) : String := ⟨s.toList.map Char.toUpper⟩

/-- Python `str.lower` restricted to ASCII. -/
def pyLower (s : String) : String := ⟨s.toList.map Char.toLower⟩

/-- Character-list infix test: does `pat` occur contiguously in `hay`? -/
def listInfixB (pat : List Char) : List Char → Bool
  | [] => pat.isPrefixOf ([] : List Char)
  | c :: rest => pat.isPrefixOf (c :: rest) || listInfixB pat rest

/-- Python `pat in hay` substring containment on strings. -/
def substrB (pat hay : String) : Bool := listInfixB pat.toList hay.toList

/-- Model of `Path(f).name`: the final path component. -/
def pathName (f : String) : String :=
  ⟨(f.toList.splitOn '/').getLastD []⟩

/-- Model of `Path(f).stem`: the final component without its last
extension.  As in `pathlib`, a leading or trailing dot does not start an
extension. -/
def pathStem (f : String) : String :=
  let cs := (pathName f).toList
  let dotIdxs := (List.range cs.length).filter
    (fun i => cs.getD i ' ' == '.' && decide (0 < i) && decide (i + 1 < cs.length))
  match dotIdxs.getLast? with
  | Option.some i => ⟨cs.take i⟩
  | Option.none => ⟨cs⟩

/-- A Python `for x in xs: if p x: return x` loop: the first element
satisfying the predicate, in declared order. -/
def firstSuchThat (p : α → Bool) : List α → Option α
  | [] => Option.none
  | x :: xs => if p x then Option.some x else firstSuchThat p xs

/-- Inner loop of `match_filename_to_mapping`: try the catalog keys in
order, returning the first whose upper-cased name occurs in the
upper-cased stem. -/
def matchKeyLoop (base : String) (ks : List String) : Option String :=
  firstSuchThat (fun k => substrB (pyUpper k) base) ks

/-- Embedding of `StreamlitExcelComparator.match_filename_to_mapping`
(app.py lines 93-103). -/
def match_filename_to_mapping (filename : String) : Option String :=
  matchKeyLoop (pyUpper (pathStem filename)) mappingKeys

/-- Result of `validate_file_mappings`: the success pattern, or one of
the two failure shapes. -/
inductive ValidateResult where
  | ok : String → ValidateResult
  | unmapped : List String → ValidateResult
  | patternMismatch : String → String → ValidateResult
deriving Repr, DecidableEq

/-- Embedding of `StreamlitExcelComparator.validate_file_mappings`
(app.py lines 105-133).  The `unmapped` list carries the
`"File N: <name>"` labels built for `missing_files`. -/
def validate_file_mappings (file1_name file2_name : String) : ValidateResult :=
  let pattern1 := match_filename_to_mapping file1_name
  let pattern2 := match_filename_to_mapping file2_name
  match pattern1, pattern2 with
  | Option.none, Option.none =>
    .unmapped ["File 1: " ++ pathName file1_name, "File 2: " ++ pathName file2_name]
  | Option.none, Option.some _ =>
    .unmapped ["File 1: " ++ pathName file1_name]
  | Option.some _, Option.none =>
    .unmapped ["File 2: " ++ pathName file2_name]
  | Option.some p1, Option.some p2 =>
    if p1 ≠ p2 then .patternMismatch p1 p2 else .ok p1

/-! ## Column alignment -/

/-- The case-insensitive match test of `get_column_mapping` (app.py lines
193-195 and 200-202): exact equality, target-in-column substring, or
column-in-target substring, all on lower-cased names. -/
def colMatches (target col : String) : Bool :=
  pyLower target == pyLower col ||
  substrB (pyLower target) (pyLower col) ||
  substrB (pyLower col) (pyLower target)

/-- The `for col in df_cols: ... break` search loops of
`get_column_mapping`: first column (in declared order) matching the
target, else `None`. -/
def findColMatch (target : String) (cols : List String) : Option String :=
  firstSuchThat (colMatches target) cols

/-- Insertion into a Python dict modelled as an association list:
an existing key is updated in place, a new key is appended. -/
def dictInsert (m : List (String × String)) (k v : String) : List (String × String) :=
  if m.any (fun p => p.1 == k) then
    m.map (fun p => if p.1 == k then (k, v) else p)
  else
    m ++ [(k, v)]

/-- One iteration of the `for target_col in target_columns` loop of
`get_column_mapping` (app.py lines 187-209): the entry is added only when
`col1_match and col2_match` is truthy in Python (both are non-`None` and,
being strings, non-empty). -/
def alignStep (cols1 cols2 : List String) (m : List (String × String))
    (target : String) : List (String × String) :=
  match findColMatch target cols1, findColMatch target cols2 with
  | Option.some c1, Option.some c2 =>
    if c1 ≠ "" ∧ c2 ≠ "" then dictInsert m c1 c2 else m
  | _, _ => m

/-- Embedding of `StreamlitExcelComparator.get_column_mapping` (app.py
lines 179-211). -/
def get_column_mapping (pattern : String) (cols1 cols2 : List String) :
    List (String × String) :=
  match mappingEntry? pattern with
  | Option.none => []
  | Option.some entry => entry.geographies.foldl (alignStep cols1 cols2) []

/-- The `if not column_map` guard in `compare_files` (app.py lines
340-341): the `NoColumnsMatched` failure fires exactly on an empty
correspondence. -/
def checkColumnMap (m : List (String × String)) :
    Except String (List (String × String)) :=
  if m.isEmpty then
    .error "No column mappings found. Please check your mapping configuration."
  else .ok m

/-! ## Row filter -/

/-- A dataframe for the purposes of `filter_extract_by_prodhier`: column
names plus rows, each row an association of column name to cell value. -/
structure DF where
  cols : List String
  rows : List (List (String × PyVal))
deriving Repr, DecidableEq

/-- Cell access within a row; a column absent from the row reads as
missing. -/
def rowGet (r : List (String × PyVal)) (c : String) : PyVal :=
  match r.lookup c with
  | Option.some v => v
  | Option.none => PyVal.none

/-- Embedding of `StreamlitExcelComparator.filter_extract_by_prodhier`
(app.py lines 135-145): no `ProdHier` column means no filtering;
otherwise keep exactly the rows whose `ProdHier` cell equals the filter
value under Python `==`.  The `st.warning` on an empty result is
advisory only and not part of the value. -/
def filter_extract_by_prodhier (df : DF) (prod_hier_filter : String) : DF :=
  if "ProdHier" ∈ df.cols then
    { df with rows := (df.rows.filter
        (fun r => pyEq (rowGet r "ProdHier") (.str prod_hier_filter))) }
  else df

/-- The `if df2_filtered.empty` guard in `compare_files` (app.py lines
305-308): filtering followed by the hard `EmptyAfterFilter` failure when
no rows remain. -/
def filterAndCheck (df : DF) (prod_hier_filter : String) : Except String DF :=
  let filtered := filter_extract_by_prodhier df prod_hier_filter
  if filtered.rows.isEmpty then
    .error ("No data remains after filtering by ProdHier = '" ++ prod_hier_filter ++ "'")
  else .ok filtered

/-! ## Date parsing -/

/-- Outcome of parsing one scalar with `pd.to_datetime` semantics: a
date (encoded as a natural number), the missing marker `NaT`, or a
raised parse error. -/
inductive DParse where
  | ok : ℕ → DParse
  | nat_ : DParse
  | fail : DParse
deriving Repr, DecidableEq

/-- Whole-series `pd.to_datetime` with the default `errors='raise'`:
a single failing scalar raises, aborting the whole conversion; missing
inputs become `NaT` entries of the resulting `Date` column. -/
def seriesToDatetime (cellParse : PyVal → DParse) : List PyVal → Option (List (Option ℕ))
  | [] => Option.some []
  | v :: vs =>
    match cellParse v with
    | .fail => Option.none
    | .ok d => (seriesToDatetime cellParse vs).map (fun ds => Option.some d :: ds)
    | .nat_ => (seriesToDatetime cellParse vs).map (fun ds => Option.none :: ds)

/-- The first-row test of `parse_dates` (app.py line 153):
`'Week ending' in str(df[col_name].iloc[0])`.  For a non-string scalar,
`str(...)` never contains the phrase, so only string cells can pass. -/
def weekEndingTest (v : PyVal) : Bool :=
  match v with
  | .str s => substrB "Week ending" s
  | _ => false

/-- First window of ten characters shaped `DD-DD-DDDD`, modelling the
regex extraction `str.extract(r'(\d{2}-\d{2}-\d{4})')` on one string. -/
def extractDatePattern : List Char → Option (List Char)
  | [] => Option.none
  | c :: rest =>
    let w := (c :: rest).take 10
    if w.length = 10 &&
        (w.getD 0 ' ').isDigit && (w.getD 1 ' ').isDigit && w.getD 2 ' ' == '-' &&
        (w.getD 3 ' ').isDigit && (w.getD 4 ' ').isDigit && w.getD 5 ' ' == '-' &&
        (w.getD 6 ' ').isDigit && (w.getD 7 ' ').isDigit &&
        (w.getD 8 ' ').isDigit && (w.getD 9 ' ').isDigit then
      Option.some w
    else extractDatePattern rest

/-- Two-digit number from characters at positions `i, i+1`. -/
def twoDigits (cs : List Char) (i : ℕ) : ℕ :=
  ((cs.getD i '0').toNat - '0'.toNat) * 10 + ((cs.getD (i + 1) '0').toNat - '0'.toNat)

/-- Day-first parse of an extracted `DD-MM-YYYY` window, with
`pd.to_datetime(..., dayfirst=True)` validation: month in `1..12`, day
in `1..31`; the date is encoded as `y * 10000 + m * 100 + d`. -/
def dayfirstParse (w : List Char) : DParse :=
  let d := twoDigits w 0
  let m := twoDigits w 3
  let y := twoDigits w 6 * 100 + twoDigits w 8
  if 1 ≤ m && m ≤ 12 && 1 ≤ d && d ≤ 31 then .ok (y * 10000 + m * 100 + d)
  else .fail

/-- Per-cell parser of the `'Week ending'` branch: `.str.extract` yields
`NaN` (hence `NaT`) for rows without the pattern — including non-string
rows — and the extracted window is parsed day-first. -/
def weekBranchCell (v : PyVal) : DParse :=
  match v with
  | .str s =>
    match extractDatePattern s.toList with
    | Option.some w => dayfirstParse w
    | Option.none => .nat_
  | _ => .nat_

/-- Embedding of `StreamlitExcelComparator.parse_dates` (app.py lines
147-163) on the date column's values.  `genericParse` stands for scalar
`pd.to_datetime` on the column's values; `dtypeObject` is whether the
column dtype is `object`.  `Option.none` models the `except` path: the
dataframe is returned without a `Date` column (an `IndexError` from
`iloc[0]` on an empty object column, or a raise from `pd.to_datetime`).
The branch test reads only the first row. -/
def parse_dates (genericParse : PyVal → DParse) (dtypeObject : Bool)
    (col : List PyVal) : Option (List (Option ℕ)) :=
  if dtypeObject then
    match col with
    | [] => Option.none
    | v0 :: _ =>
      if weekEndingTest v0 then seriesToDatetime weekBranchCell col
      else seriesToDatetime genericParse col
  else seriesToDatetime genericParse col

/-- The `if 'Date' not in df.columns` guard of `compare_files` (app.py
lines 320-321): a dataset whose date column could not be converted fails
with the `ParseFailure` message. -/
def checkParsed (parsed : Option (List (Option ℕ))) :
    Except String (List (Option ℕ)) :=
  match parsed with
  | Option.none => .error "Could not parse dates from files"
  | Option.some ds => .ok ds

/-- Demo scalar parser standing for `pd.to_datetime` on these concrete
values: an ISO string parses, the float NaN gives `NaT`, everything else
raises. -/
def gpDemo : PyVal → DParse
  | .str "2024-01-01" => .ok 20240101
  | .str "2024-01-08" => .ok 20240108
  | .nan => .nat_
  | _ => .fail

/-! ## Date alignment and the comparison loop -/

/-- `common_dates = df1.index.intersection(df2_filtered.index)` (app.py
line 328). -/
def commonDates (idx1 idx2 : Finset ℕ) : Finset ℕ := idx1 ∩ idx2

/-- `new_dates = df2_filtered.index.difference(df1.index)` (app.py line
329). -/
def newDates (idx1 idx2 : Finset ℕ) : Finset ℕ := idx2 \ idx1

/-- The `if len(common_dates) == 0` guard of `compare_files` (app.py
lines 331-332). -/
def checkCommonDates (idx1 idx2 : Finset ℕ) :
    Except String (Finset ℕ × Finset ℕ) :=
  if (commonDates idx1 idx2).card = 0 then
    .error "No common dates found between files"
  else .ok (commonDates idx1 idx2, newDates idx1 idx2)

/-- A `MismatchRecord`, one appended row of `mismatch_rows` (app.py lines
358-366). -/
structure MRec where
  date : ℕ
  col1 : String
  val1 : PyVal
  col2 : String
  val2 : PyVal
  difference : Flt
  aboveThreshold : Bool
deriving Repr, DecidableEq

/-- Python truthiness of the `is_different` value (`None` / `False` /
`True`). -/
def truthyOB (o : Option Bool) : Bool := o.getD false

/-- One iteration of the inner comparison loop (app.py lines 350-366):
look up the two cells, run `compare_values`, and produce the appended
`MismatchRecord` if `is_different and difference > self.threshold`. -/
def cellOutcome (threshold : ℚ) (lookA lookB : String → ℕ → PyVal)
    (c1 c2 : String) (d : ℕ) : Except Unit (Option MRec) := do
  let v1 := lookA c1 d
  let v2 := lookB c2 d
  let r ← compare_values threshold v1 v2
  if truthyOB r.1 && fltGt r.2 threshold then
    .ok (Option.some ⟨d, c1, v1, c2, v2, r.2, true⟩)
  else
    .ok Option.none

/-- The iteration grid of the comparison loops: columns outer, dates
inner (app.py lines 348-349). -/
def comparisonCells (columnMap : List (String × String)) (dates : List ℕ) :
    List ((String × String) × ℕ) :=
  columnMap.flatMap (fun p => dates.map (fun d => (p, d)))

/-- Effectful map over a list in the `Except` monad: an exception raised
at any element aborts the whole traversal, as in the Python loop. -/
def mapExcept (f : α → Except Unit β) : List α → Except Unit (List β)
  | [] => .ok []
  | x :: xs => do
    let y ← f x
    let ys ← mapExcept f xs
    .ok (y :: ys)

/-- Embedding of the comparison loop of `compare_files` (app.py lines
344-366): returns `(mismatch_rows, total_comparisons,
significant_differences)`. -/
def compareMapped (threshold : ℚ) (columnMap : List (String × String))
    (dates : List ℕ) (lookA lookB : String → ℕ → PyVal) :
    Except Unit (List MRec × ℕ × ℕ) := do
  let outs ← mapExcept (fun c => cellOutcome threshold lookA lookB c.1.1 c.1.2 c.2)
    (comparisonCells columnMap dates)
  let ms := outs.filterMap id
  .ok (ms, (comparisonCells columnMap dates).length, ms.length)

/-! ## Helper lemmas and sanity evaluations -/

lemma firstSuchThat_eq_some_iff {α : Type} (p : α → Bool) :
    ∀ (xs : List α) (x : α),
      firstSuchThat p xs = Option.some x ↔
        ∃ pre post, xs = pre ++ x :: post ∧ (∀ y ∈ pre, p y = false) ∧ p x = true := by
  intro xs
  induction xs with
  | nil =>
    intro x
    simp [firstSuchThat]
  | cons a as ih =>
    intro x
    by_cases h : p a
    · simp only [firstSuchThat, h, if_pos]
      constructor
      · intro hx
        cases hx
        exact ⟨[], as, rfl, by simp, h⟩
      · rintro ⟨pre, post, hsplit, hpre, hx⟩
        cases pre with
        | nil => simp at hsplit; rw [hsplit.1]
        | cons b pre' =>
          simp at hsplit
          exfalso
          have hb := hpre b (by simp)
          rw [← hsplit.1] at hb
          rw [hb] at h
          exact Bool.false_ne_true h
    · have ha : p a = false := by simpa using h
      have hred : firstSuchThat p (a :: as) = firstSuchThat p as := by
        simp [firstSuchThat, h]
      rw [hred, ih x]
      constructor
      · rintro ⟨pre, post, hsplit, hpre, hx⟩
        refine ⟨a :: pre, post, by rw [hsplit]; rfl, ?_, hx⟩
        intro y hy
        rcases List.mem_cons.mp hy with hy | hy
        · rw [hy]; exact ha
        · exact hpre y hy
      · rintro ⟨pre, post, hsplit, hpre, hx⟩
        cases pre with
        | nil =>
          simp at hsplit
          exfalso
          apply h
          rw [hsplit.1]
          exact hx
        | cons b pre' =>
          simp at hsplit
          exact ⟨pre', post, hsplit.2, fun y hy => hpre y (by simp [hy]), hx⟩

lemma firstSuchThat_eq_none_iff {α : Type} (p : α → Bool) :
    ∀ (xs : List α),
      firstSuchThat p xs = Option.none ↔ ∀ x ∈ xs, p x = false := by
  intro xs
  induction xs with
  | nil => simp [firstSuchThat]
  | cons a as ih =>
    by_cases h : p a
    · simp [firstSuchThat, h]
    · have ha : p a = false := by simpa using h
      have hred : firstSuchThat p (a :: as) = firstSuchThat p as := by
        simp [firstSuchThat, h]
      rw [hred, ih]
      constructor
      · intro hall x hx
        rcases List.mem_cons.mp hx with hx | hx
        · rw [hx]; exact ha
        · exact hall x hx
      · intro hall x hx
        exact hall x (by simp [hx])

lemma exceptBind_ok {ε α β : Type} (a : α) (f : α → Except ε β) :
    (Except.ok a >>= f : Except ε β) = f a := rfl

lemma exceptBind_error {ε α β : Type} (e : ε) (f : α → Except ε β) :
    (Except.error e >>= f : Except ε β) = Except.error e := rfl

lemma mapExcept_ok_iff {α β : Type} (f : α → Except Unit β) :
    ∀ (xs : List α) (ys : List β), mapExcept f xs = .ok ys →
      ∀ y, y ∈ ys ↔ ∃ x ∈ xs, f x = .ok y := by
  intro xs
  induction xs with
  | nil =>
    intro ys h y
    simp only [mapExcept] at h
    cases h
    simp
  | cons x xs ih =>
    intro ys h y
    simp only [mapExcept] at h
    cases hfx : f x with
    | error e => rw [hfx] at h; simp [exceptBind_error] at h
    | ok b =>
      rw [hfx] at h
      rw [exceptBind_ok] at h
      cases hrest : mapExcept f xs with
      | error e => rw [hrest] at h; simp [exceptBind_error] at h
      | ok bs =>
        rw [hrest] at h
        rw [exceptBind_ok] at h
        cases h
        constructor
        · intro hy
          rcases List.mem_cons.mp hy with hy | hy
          · exact ⟨x, by simp, by rw [hfx, hy]⟩
          · rcases (ih bs hrest y).mp hy with ⟨x', hx', hfx'⟩
            exact ⟨x', by simp [hx'], hfx'⟩
        · rintro ⟨x', hx', hfx'⟩
          rcases List.mem_cons.mp hx' with hx' | hx'
          · rw [hx'] at hfx'
            rw [hfx] at hfx'
            cases hfx'
            simp
          · exact List.mem_cons.mpr (Or.inr ((ih bs hrest y).mpr ⟨x', hx', hfx'⟩))

lemma dictInsert_mem {m : List (String × String)} {k v : String}
    {p : String × String} (hp : p ∈ dictInsert m k v) : p ∈ m ∨ p = (k, v) := by
  unfold dictInsert at hp
  split at hp
  · rcases List.mem_map.mp hp with ⟨q, hq, hfq⟩
    by_cases hk : q.1 == k
    · rw [if_pos hk] at hfq
      exact Or.inr hfq.symm
    · rw [if_neg hk] at hfq
      exact Or.inl (hfq ▸ hq)
  · rcases List.mem_append.mp hp with hp | hp
    · exact Or.inl hp
    · simp at hp
      exact Or.inr (by rw [hp])

lemma seriesToDatetime_none_iff (cellParse : PyVal → DParse) :
    ∀ col : List PyVal,
      seriesToDatetime cellParse col = Option.none ↔
        ∃ v ∈ col, cellParse v = DParse.fail := by
  intro col
  induction col with
  | nil => simp [seriesToDatetime]
  | cons v vs ih =>
    simp only [seriesToDatetime]
    cases hv : cellParse v with
    | fail => simp [hv]
    | ok d =>
      show Option.map (fun ds => Option.some d :: ds) (seriesToDatetime cellParse vs) =
        Option.none ↔ _
      rw [Option.map_eq_none']
      rw [ih]
      constructor
      · rintro ⟨w, hw, hfw⟩
        exact ⟨w, by simp [hw], hfw⟩
      · rintro ⟨w, hw, hfw⟩
        rcases List.mem_cons.mp hw with hw | hw
        · rw [hw] at hfw; rw [hv] at hfw; cases hfw
        · exact ⟨w, hw, hfw⟩
    | nat_ =>
      show Option.map (fun ds => Option.none :: ds) (seriesToDatetime cellParse vs) =
        Option.none ↔ _
      rw [Option.map_eq_none']
      rw [ih]
      constructor
      · rintro ⟨w, hw, hfw⟩
        exact ⟨w, by simp [hw], hfw⟩
      · rintro ⟨w, hw, hfw⟩
        rcases List.mem_cons.mp hw with hw | hw
        · rw [hw] at hfw; rw [hv] at hfw; cases hfw
        · exact ⟨w, hw, hfw⟩

lemma seriesToDatetime_length (cellParse : PyVal → DParse) :
    ∀ (col : List PyVal) (ds : List (Option ℕ)),
      seriesToDatetime cellParse col = Option.some ds → ds.length = col.length := by
  intro col
  induction col with
  | nil =>
    intro ds h
    simp only [seriesToDatetime] at h
    cases h
    rfl
  | cons v vs ih =>
    intro ds h
    simp only [seriesToDatetime] at h
    cases hv : cellParse v <;> rw [hv] at h
    · cases hrest : seriesToDatetime cellParse vs <;> rw [hrest] at h
      · cases h
      · cases h
        simp [ih _ hrest]
    · cases hrest : seriesToDatetime cellParse vs <;> rw [hrest] at h
      · cases h
      · cases h
        simp [ih _ hrest]
    · cases h

lemma ratAbs_eq_abs (q : ℚ) : ratAbs q = |q| := by
  unfold ratAbs
  rcases lt_or_ge q 0 with h | h
  · rw [if_pos h, abs_of_neg h]
  · rw [if_neg (not_lt.mpr h), abs_of_nonneg h]

lemma ratAbs_zero_sub (q : ℚ) : ratAbs (0 - q) = ratAbs q := by
  rw [ratAbs_eq_abs, ratAbs_eq_abs, zero_sub, abs_neg]

lemma ratAbs_neg (q : ℚ) : ratAbs (-q) = ratAbs q := by
  rw [ratAbs_eq_abs, ratAbs_eq_abs, abs_neg]

lemma pyOrZero_num (q : ℚ) : pyOrZero (.num q) = .num q := by
  unfold pyOrZero pyTruthy
  by_cases h : q = 0
  · rw [h]
    simp
  · simp [h]

lemma cellOutcome_ok_some_iff (th : ℚ) (lookA lookB : String → ℕ → PyVal)
    (c1 c2 : String) (d : ℕ) (m : MRec) :
    cellOutcome th lookA lookB c1 c2 d = .ok (Option.some m) ↔
      ∃ isDiff diff,
        compare_values th (lookA c1 d) (lookB c2 d) = .ok (isDiff, diff) ∧
        truthyOB isDiff = true ∧ fltGt diff th = true ∧
        m = ⟨d, c1, lookA c1 d, c2, lookB c2 d, diff, true⟩ := by
  simp only [cellOutcome]
  cases hcv : compare_values th (lookA c1 d) (lookB c2 d) with
  | error e =>
    rw [exceptBind_error]
    constructor
    · intro h
      cases h
    · rintro ⟨i, df, hc, -, -, -⟩
      cases hc
  | ok r =>
    rw [exceptBind_ok]
    by_cases hcond : (truthyOB r.1 && fltGt r.2 th) = true
    · have hparts : truthyOB r.1 = true ∧ fltGt r.2 th = true := by
        simpa using hcond
      rw [if_pos hcond]
      constructor
      · intro h
        cases h
        exact ⟨r.1, r.2, rfl, hparts.1, hparts.2, rfl⟩
      · rintro ⟨i, df, hc, -, -, hm⟩
        cases hc
        rw [hm]
    · rw [if_neg hcond]
      constructor
      · intro h
        cases h
      · rintro ⟨i, df, hc, hT, hG, -⟩
        cases hc
        exact absurd (by rw [hT, hG]; rfl) hcond

lemma comparisonCells_mem (columnMap : List (String × String)) (dates : List ℕ)
    (p : String × String) (d : ℕ) :
    ((p, d) ∈ comparisonCells columnMap dates) ↔ p ∈ columnMap ∧ d ∈ dates := by
  simp only [comparisonCells, List.mem_flatMap, List.mem_map, Prod.mk.injEq]
  constructor
  · rintro ⟨q, hq, d', hd', hdq, hdd⟩
    rw [← hdq, ← hdd]
    exact ⟨hq, hd'⟩
  · rintro ⟨hp, hd⟩
    exact ⟨p, hp, d, hd, rfl, rfl⟩

lemma alignStep_skip {cols1 cols2 : List String} {m : List (String × String)}
    {target : String}
    (h : findColMatch target cols1 = Option.none ∨
      findColMatch target cols2 = Option.none) :
    alignStep cols1 cols2 m target = m := by
  unfold alignStep
  rcases h with h | h
  · rw [h]
  · rw [h]
    cases findColMatch target cols1 <;> rfl

lemma alignStep_mem {cols1 cols2 : List String} {m : List (String × String)}
    {target : String} {p : String × String}
    (hp : p ∈ alignStep cols1 cols2 m target) :
    p ∈ m ∨ (findColMatch target cols1 = Option.some p.1 ∧
      findColMatch target cols2 = Option.some p.2) := by
  cases hf1 : findColMatch target cols1 with
  | none =>
    rw [alignStep_skip (Or.inl hf1)] at hp
    exact Or.inl hp
  | some c1 =>
    cases hf2 : findColMatch target cols2 with
    | none =>
      rw [alignStep_skip (Or.inr hf2)] at hp
      exact Or.inl hp
    | some c2 =>
      have hstep : alignStep cols1 cols2 m target =
          if c1 ≠ "" ∧ c2 ≠ "" then dictInsert m c1 c2 else m := by
        unfold alignStep
        rw [hf1, hf2]
      rw [hstep] at hp
      by_cases hc : c1 ≠ "" ∧ c2 ≠ ""
      · rw [if_pos hc] at hp
        rcases dictInsert_mem hp with h | h
        · exact Or.inl h
        · right
          rw [h]
          exact ⟨rfl, rfl⟩
      · rw [if_neg hc] at hp
        exact Or.inl hp

lemma foldl_alignStep_mem (cols1 cols2 : List String) :
    ∀ (targets : List String) (m0 : List (String × String)) (p : String × String),
      p ∈ targets.foldl (alignStep cols1 cols2) m0 →
      p ∈ m0 ∨ ∃ t ∈ targets, findColMatch t cols1 = Option.some p.1 ∧
        findColMatch t cols2 = Option.some p.2 := by
  intro targets
  induction targets with
  | nil =>
    intro m0 p hp
    exact Or.inl hp
  | cons t ts ih =>
    intro m0 p hp
    rw [List.foldl_cons] at hp
    rcases ih _ p hp with hm | ⟨t', ht', h1, h2⟩
    · rcases alignStep_mem hm with hm | ⟨h1, h2⟩
      · exact Or.inl hm
      · exact Or.inr ⟨t, by simp, h1, h2⟩
    · exact Or.inr ⟨t', by simp [ht'], h1, h2⟩

example : compare_values defaultThreshold (.num 1) (.num 2) =
    .ok (Option.some true, .fin 1) := by
  norm_num [compare_values, pdIsna, pyFloat, exceptBind_ok, fltSub, fltAbs,
    fltGt, ratAbs, defaultThreshold]

example : compare_values defaultThreshold .nan (.num 5) =
    .ok (Option.some true, .nan) := by
  norm_num [compare_values, pdIsna, pyOrZero, pyTruthy, pyFloat,
    exceptBind_ok, fltSub, fltAbs]

example : compare_values defaultThreshold .none (.num 5) =
    .ok (Option.some true, .fin 5) := by
  norm_num [compare_values, pdIsna, pyOrZero, pyTruthy, pyFloat,
    exceptBind_ok, fltSub, fltAbs, ratAbs]

example : compare_values defaultThreshold (.str "abc") (.str "abd") =
    .ok (Option.some true, .fin 0) := by
  have h1 : pyFloat (.str "abc") = .error () := by decide
  have h2 : pyFloat (.str "abd") = .error () := by decide
  have h3 : pyEq (.str "abc") (.str "abd") = false := by decide
  norm_num [compare_values, pdIsna, h1, h2, h3]

example : compare_values defaultThreshold .nan .nan =
    .ok (Option.none, .fin 0) := by
  norm_num [compare_values, pdIsna]

example : compare_values defaultThreshold .nan (.str "abc") = .error () := by
  have h0 : pyOrZero (.str "abc") = .str "abc" := by decide
  have h1 : pyFloat (.str "abc") = .error () := by decide
  have h2 : pyFloat (pyOrZero .nan) = .ok .nan := by decide
  norm_num [compare_values, pdIsna, exceptBind_ok, exceptBind_error, h0, h1, h2]

example : match_filename_to_mapping "IT_2393_APROTEICI_D156.xlsx" =
    Option.some "APROTEICI" := by decide

example : match_filename_to_mapping "1. Check_Model_Custom_APROTEICI (33).xlsx" =
    Option.some "APROTEICI" := by decide

example : match_filename_to_mapping "IT_SALSE_D100.xlsx" =
    Option.some "SALSE" := by decide

example : match_filename_to_mapping "random_file.xlsx" = Option.none := by decide

example : validate_file_mappings "IT_2393_APROTEICI_D156.xlsx"
    "1. Check_Model_Custom_APROTEICI (33).xlsx" = .ok "APROTEICI" := by decide

example : validate_file_mappings "IT_2393_APROTEICI_D156.xlsx" "IT_SALSE_D1.xlsx" =
    .patternMismatch "APROTEICI" "SALSE" := by decide

example : validate_file_mappings "foo.xlsx" "IT_SALSE_D1.xlsx" =
    .unmapped ["File 1: foo.xlsx"] := by decide

example : get_column_mapping "SALSE" ["Time", "Discount (58)", "SSS (7013)"]
    ["Date", "discount (58) ", "SSS"] =
    [("Discount (58)", "discount (58) "), ("SSS (7013)", "SSS")] := by decide

example : get_column_mapping "NOPE" ["Discount (58)"] ["Discount (58)"] = [] := by
  decide

example :
    filter_extract_by_prodhier
      { cols := ["ProdHier", "X"],
        rows := [[("ProdHier", .str "01-CATEGORY_8"), ("X", .num 1)],
                 [("ProdHier", .str "01-category_8"), ("X", .num 2)]] }
      "01-CATEGORY_8" =
    { cols := ["ProdHier", "X"],
      rows := [[("ProdHier", .str "01-CATEGORY_8"), ("X", .num 1)]] } := by decide

example :
    filter_extract_by_prodhier { cols := ["X"], rows := [[("X", .num 1)]] } "01-CATEGORY_8" =
    { cols := ["X"], rows := [[("X", .num 1)]] } := by decide

example : parse_dates gpDemo false [.str "2024-01-01", .str "2024-01-08"] =
    Option.some [Option.some 20240101, Option.some 20240108] := by decide

example : parse_dates gpDemo false [.str "2024-01-01", .str "garbage"] =
    Option.none := by decide

example : parse_dates gpDemo true [.str "Week ending 05-01-2024", .str "nonsense"] =
    Option.some [Option.some 20240105, Option.none] := by decide

example : parse_dates gpDemo true [.str "2024-01-01", .str "Week ending 05-01-2024"] =
    Option.none := by decide

example :
    compareMapped defaultThreshold [("A", "B")] [0]
      (fun _ _ => .num 1) (fun _ _ => .num 2) =
    .ok ([⟨0, "A", .num 1, "B", .num 2, .fin 1, true⟩], 1, 1) := by
  norm_num [compareMapped, mapExcept, comparisonCells, cellOutcome,
    compare_values, pdIsna, pyFloat, exceptBind_ok, fltSub, fltAbs, fltGt,
    ratAbs, truthyOB, defaultThreshold, List.filterMap_cons, List.filterMap_nil,
    id_eq]

/-! ## Claim theorems -/

/-- C3: for every pair of date indexes, `common_dates` is their
intersection and `new_dates` is the source-b dates minus the source-a
dates, so every source-b date lies in exactly one of the two sets; the
`NoCommonDates` failure fires exactly when the intersection is empty. -/
theorem commonDates_newDates_partition (idx1 idx2 : Finset ℕ) :
    (∀ d, d ∈ commonDates idx1 idx2 ↔ d ∈ idx1 ∧ d ∈ idx2) ∧
    (∀ d, d ∈ newDates idx1 idx2 ↔ d ∈ idx2 ∧ d ∉ idx1) ∧
    (∀ d ∈ idx2, (d ∈ commonDates idx1 idx2 ↔ d ∉ newDates idx1 idx2)) ∧
    ((∃ e, checkCommonDates idx1 idx2 = .error e) ↔ commonDates idx1 idx2 = ∅) := by
  refine ⟨?_, ?_, ?_, ?_⟩
  · intro d
    simp [commonDates]
  · intro d
    simp [newDates]
  · intro d hd
    simp only [commonDates, newDates, Finset.mem_inter, Finset.mem_sdiff, hd]
    tauto
  · constructor
    · rintro ⟨e, he⟩
      unfold checkCommonDates at he
      split at he
      · next hcard => exact Finset.card_eq_zero.mp hcard
      · cases he
    · intro h
      refine ⟨"No common dates found between files", ?_⟩
      unfold checkCommonDates
      rw [if_pos (by rw [h]; rfl)]

/-- Witness for C3 at the concrete indexes `{1, 2}` and `{2, 3}`. -/
theorem commonDates_newDates_partition_witness :
    (2 ∈ commonDates ({1, 2} : Finset ℕ) ({2, 3} : Finset ℕ) ↔
      2 ∉ newDates ({1, 2} : Finset ℕ) ({2, 3} : Finset ℕ)) :=
  (commonDates_newDates_partition {1, 2} {2, 3}).2.2.1 2 (by decide)

/-- C4: `match_filename_to_mapping` is a pure function of the filename
(hence deterministic); it upper-cases the extension-stripped stem and
returns the first catalog key, in declaration order, whose upper-cased
name is a substring of the stem, and `None` exactly when no key's name
is a substring. -/
theorem match_filename_first_match (f : String) :
    (∀ p, match_filename_to_mapping f = Option.some p →
      ∃ pre post, mappingKeys = pre ++ p :: post ∧
        (∀ q ∈ pre, substrB (pyUpper q) (pyUpper (pathStem f)) = false) ∧
        substrB (pyUpper p) (pyUpper (pathStem f)) = true) ∧
    (match_filename_to_mapping f = Option.none ↔
      ∀ p ∈ mappingKeys, substrB (pyUpper p) (pyUpper (pathStem f)) = false) := by
  constructor
  · intro p hp
    exact (firstSuchThat_eq_some_iff
      (fun k => substrB (pyUpper k) (pyUpper (pathStem f))) mappingKeys p).mp hp
  · exact firstSuchThat_eq_none_iff
      (fun k => substrB (pyUpper k) (pyUpper (pathStem f))) mappingKeys

/-- Witness for C4 at the concrete filename `IT_2393_APROTEICI_D156.xlsx`. -/
theorem match_filename_first_match_witness :
    ∃ pre post, mappingKeys = pre ++ "APROTEICI" :: post ∧
      (∀ q ∈ pre, substrB (pyUpper q)
        (pyUpper (pathStem "IT_2393_APROTEICI_D156.xlsx")) = false) ∧
      substrB (pyUpper "APROTEICI")
        (pyUpper (pathStem "IT_2393_APROTEICI_D156.xlsx")) = true :=
  (match_filename_first_match "IT_2393_APROTEICI_D156.xlsx").1 "APROTEICI" (by decide)

/-- C10: which per-cell parser is applied to the whole date column is
decided solely by the column dtype and its first row: the day-first
`DD-MM-YYYY` extraction runs exactly when the dtype is `object` and the
first value contains the substring `Week ending`; later rows play no
part in the branch choice. -/
theorem parse_dates_branch (gp : PyVal → DParse) (dtypeObject : Bool)
    (v0 : PyVal) (rest : List PyVal) :
    parse_dates gp dtypeObject (v0 :: rest) =
      seriesToDatetime
        (if dtypeObject && weekEndingTest v0 then weekBranchCell else gp)
        (v0 :: rest) ∧
    (weekEndingTest v0 = true ↔
      ∃ s, v0 = PyVal.str s ∧ substrB "Week ending" s = true) := by
  constructor
  · unfold parse_dates
    cases dtypeObject with
    | false => simp
    | true =>
      by_cases h : weekEndingTest v0
      · simp [h]
      · simp [h]
  · cases v0 <;> simp [weekEndingTest]

/-- C5: `validate_file_mappings` fails with `UnmappedFile` when either
name matches no catalog entry, listing exactly the inputs that failed;
fails with `PatternMismatch` when both match but to different entries;
and otherwise returns the shared entry. -/
theorem validate_file_mappings_cases (f1 f2 : String) :
    (∀ p, validate_file_mappings f1 f2 = .ok p ↔
      (match_filename_to_mapping f1 = Option.some p ∧
       match_filename_to_mapping f2 = Option.some p)) ∧
    (∀ l, validate_file_mappings f1 f2 = .unmapped l ↔
      ((match_filename_to_mapping f1 = Option.none ∨
        match_filename_to_mapping f2 = Option.none) ∧
       l = (if match_filename_to_mapping f1 = Option.none
              then ["File 1: " ++ pathName f1] else []) ++
           (if match_filename_to_mapping f2 = Option.none
              then ["File 2: " ++ pathName f2] else []))) ∧
    (∀ a b, validate_file_mappings f1 f2 = .patternMismatch a b ↔
      (match_filename_to_mapping f1 = Option.some a ∧
       match_filename_to_mapping f2 = Option.some b ∧ a ≠ b)) := by
  cases h1 : match_filename_to_mapping f1 with
  | none =>
    cases h2 : match_filename_to_mapping f2 with
    | none =>
      have hv : validate_file_mappings f1 f2 =
          .unmapped ["File 1: " ++ pathName f1, "File 2: " ++ pathName f2] := by
        simp only [validate_file_mappings, h1, h2]
      refine ⟨?_, ?_, ?_⟩ <;> intros <;> simp [hv, eq_comm]
    | some q =>
      have hv : validate_file_mappings f1 f2 =
          .unmapped ["File 1: " ++ pathName f1] := by
        simp only [validate_file_mappings, h1, h2]
      refine ⟨?_, ?_, ?_⟩ <;> intros <;> simp [hv, eq_comm]
  | some p1 =>
    cases h2 : match_filename_to_mapping f2 with
    | none =>
      have hv : validate_file_mappings f1 f2 =
          .unmapped ["File 2: " ++ pathName f2] := by
        simp only [validate_file_mappings, h1, h2]
      refine ⟨?_, ?_, ?_⟩ <;> intros <;> simp [hv, eq_comm]
    | some p2 =>
      by_cases hpq : p1 = p2
      · subst hpq
        have hv : validate_file_mappings f1 f2 = .ok p1 := by
          simp [validate_file_mappings, h1, h2]
        refine ⟨?_, ?_, ?_⟩
        · intro p
          rw [hv]
          constructor
          · intro h
            cases h
            exact ⟨rfl, rfl⟩
          · rintro ⟨hA, -⟩
            cases hA
            rfl
        · intro l
          rw [hv]
          constructor
          · intro h
            cases h
          · rintro ⟨hor, -⟩
            rcases hor with h | h
            · cases h
            · cases h
        · intro a b
          rw [hv]
          constructor
          · intro h
            cases h
          · rintro ⟨hA, hB, hab⟩
            cases hA
            cases hB
            exact absurd rfl hab
      · have hv : validate_file_mappings f1 f2 = .patternMismatch p1 p2 := by
          simp [validate_file_mappings, h1, h2, hpq]
        refine ⟨?_, ?_, ?_⟩
        · intro p
          rw [hv]
          constructor
          · intro h
            cases h
          · rintro ⟨hA, hB⟩
            cases hA
            cases hB
            exact absurd rfl hpq
        · intro l
          rw [hv]
          constructor
          · intro h
            cases h
          · rintro ⟨hor, -⟩
            rcases hor with h | h
            · cases h
            · cases h
        · intro a b
          rw [hv]
          constructor
          · intro h
            cases h
            exact ⟨rfl, rfl, hpq⟩
          · rintro ⟨hA, hB, -⟩
            cases hA
            cases hB
            rfl

/-- Witness for C5 at a concrete pair where only the first file fails to
match. -/
theorem validate_file_mappings_cases_witness :
    (match_filename_to_mapping "foo.xlsx" = Option.none ∨
     match_filename_to_mapping "IT_SALSE_D1.xlsx" = Option.none) ∧
    ["File 1: foo.xlsx"] =
      (if match_filename_to_mapping "foo.xlsx" = Option.none
         then ["File 1: " ++ pathName "foo.xlsx"] else []) ++
      (if match_filename_to_mapping "IT_SALSE_D1.xlsx" = Option.none
         then ["File 2: " ++ pathName "IT_SALSE_D1.xlsx"] else []) :=
  ((validate_file_mappings_cases "foo.xlsx" "IT_SALSE_D1.xlsx").2.1
    ["File 1: foo.xlsx"]).mp (by decide)

/-- C8: `filter_extract_by_prodhier` returns the dataset unchanged when
it has no `ProdHier` column and otherwise keeps exactly the rows whose
`ProdHier` cell equals the filter value under case-sensitive Python
equality; an empty filtered result is not a failure of the filter itself
but trips the `EmptyAfterFilter` guard one level up. -/
theorem filter_by_prodhier_rows (df : DF) (fv : String) :
    ("ProdHier" ∉ df.cols → filter_extract_by_prodhier df fv = df) ∧
    ("ProdHier" ∈ df.cols →
      ∀ r, r ∈ (filter_extract_by_prodhier df fv).rows ↔
        (r ∈ df.rows ∧ pyEq (rowGet r "ProdHier") (.str fv) = true)) ∧
    ((∃ e, filterAndCheck df fv = .error e) ↔
      (filter_extract_by_prodhier df fv).rows = []) := by
  refine ⟨?_, ?_, ?_⟩
  · intro h
    unfold filter_extract_by_prodhier
    rw [if_neg h]
  · intro h r
    unfold filter_extract_by_prodhier
    rw [if_pos h]
    simp [List.mem_filter]
  · constructor
    · rintro ⟨e, he⟩
      simp only [filterAndCheck] at he
      split at he
      · next hemp => exact List.isEmpty_iff.mp hemp
      · cases he
    · intro h
      refine ⟨"No data remains after filtering by ProdHier = '" ++ fv ++ "'", ?_⟩
      simp only [filterAndCheck]
      rw [if_pos (by rw [h]; rfl)]

/-- Witness for C8 at a concrete dataset with a `ProdHier` column. -/
theorem filter_by_prodhier_rows_witness :
    ([("ProdHier", PyVal.str "01-CATEGORY_8"), ("X", PyVal.num 1)] ∈
      (filter_extract_by_prodhier
        { cols := ["ProdHier", "X"],
          rows := [[("ProdHier", PyVal.str "01-CATEGORY_8"), ("X", PyVal.num 1)],
                   [("ProdHier", PyVal.str "01-category_8"), ("X", PyVal.num 2)]] }
        "01-CATEGORY_8").rows ↔
      ([("ProdHier", PyVal.str "01-CATEGORY_8"), ("X", PyVal.num 1)] ∈
        ([[("ProdHier", PyVal.str "01-CATEGORY_8"), ("X", PyVal.num 1)],
          [("ProdHier", PyVal.str "01-category_8"), ("X", PyVal.num 2)]] :
          List (List (String × PyVal))) ∧
       pyEq (rowGet [("ProdHier", PyVal.str "01-CATEGORY_8"), ("X", PyVal.num 1)]
         "ProdHier") (.str "01-CATEGORY_8") = true)) :=
  (filter_by_prodhier_rows
    { cols := ["ProdHier", "X"],
      rows := [[("ProdHier", PyVal.str "01-CATEGORY_8"), ("X", PyVal.num 1)],
               [("ProdHier", PyVal.str "01-category_8"), ("X", PyVal.num 2)]] }
    "01-CATEGORY_8").2.1 (by decide) _

/-- C6: for every expected geography name, the column search scans each
source's columns in declared order and picks the first name matching
case-insensitively by exact equality or substring containment in either
direction; an expected name with no match is skipped without failing,
and the `NoColumnsMatched` failure fires exactly when the resulting
correspondence is empty. -/
theorem column_alignment_search (cols1 cols2 : List String) :
    (∀ target cols c, findColMatch target cols = Option.some c ↔
      ∃ pre post, cols = pre ++ c :: post ∧
        (∀ c' ∈ pre, colMatches target c' = false) ∧
        colMatches target c = true) ∧
    (∀ target cols, findColMatch target cols = Option.none ↔
      ∀ c ∈ cols, colMatches target c = false) ∧
    (∀ m target,
      (findColMatch target cols1 = Option.none ∨
       findColMatch target cols2 = Option.none) →
      alignStep cols1 cols2 m target = m) ∧
    (∀ m, (∃ e, checkColumnMap m = .error e) ↔ m = []) := by
  refine ⟨?_, ?_, ?_, ?_⟩
  · intro target cols c
    exact firstSuchThat_eq_some_iff (colMatches target) cols c
  · intro target cols
    exact firstSuchThat_eq_none_iff (colMatches target) cols
  · intro m target h
    exact alignStep_skip h
  · intro m
    constructor
    · rintro ⟨e, he⟩
      unfold checkColumnMap at he
      split at he
      · next hemp => exact List.isEmpty_iff.mp hemp
      · cases he
    · intro h
      subst h
      exact ⟨"No column mappings found. Please check your mapping configuration.", rfl⟩

/-- Witness for C6: a target with a match in neither source leaves the
correspondence unchanged. -/
theorem column_alignment_search_witness :
    alignStep ["X"] ["Y"] [("A", "B")] "Total Italy Pharma (3930)" = [("A", "B")] :=
  (column_alignment_search ["X"] ["Y"]).2.2.1 [("A", "B")]
    "Total Italy Pharma (3930)" (Or.inl (by decide))

/-- C9: an entry appears in the column correspondence only when the
underlying expected geography name found a matching column in BOTH
sources; a one-sided match contributes nothing. -/
theorem column_map_entry_requires_both (pattern : String)
    (cols1 cols2 : List String) (c1 c2 : String)
    (h : (c1, c2) ∈ get_column_mapping pattern cols1 cols2) :
    ∃ entry target, mappingEntry? pattern = Option.some entry ∧
      target ∈ entry.geographies ∧
      findColMatch target cols1 = Option.some c1 ∧
      findColMatch target cols2 = Option.some c2 := by
  unfold get_column_mapping at h
  cases hent : mappingEntry? pattern with
  | none =>
    rw [hent] at h
    cases h
  | some entry =>
    rw [hent] at h
    rcases foldl_alignStep_mem cols1 cols2 entry.geographies [] (c1, c2) h with
      hm | ⟨t, ht, hA, hB⟩
    · cases hm
    · exact ⟨entry, t, rfl, ht, hA, hB⟩

/-- Witness for C9 at a concrete SALSE correspondence entry. -/
theorem column_map_entry_requires_both_witness :
    ∃ entry target, mappingEntry? "SALSE" = Option.some entry ∧
      target ∈ entry.geographies ∧
      findColMatch target ["Time", "Discount (58)", "SSS (7013)"] =
        Option.some "Discount (58)" ∧
      findColMatch target ["Date", "discount (58) ", "SSS"] =
        Option.some "discount (58) " :=
  column_map_entry_requires_both "SALSE" ["Time", "Discount (58)", "SSS (7013)"]
    ["Date", "discount (58) ", "SSS"] "Discount (58)" "discount (58) " (by decide)

/-- C1: in the comparison loop a `MismatchRecord` is appended, and
`significant_count` incremented, exactly for the cells judged different
whose difference strictly exceeds the threshold; `significant_count`
equals the number of appended records, a difference exactly equal to the
threshold is never flagged, and every record in the list has
`difference > threshold` (so a pair flagged different with a difference
not exceeding the threshold, such as the non-numeric case with
difference `0`, never appears). -/
theorem compareMapped_mismatch_iff (th : ℚ) (columnMap : List (String × String))
    (dates : List ℕ) (lookA lookB : String → ℕ → PyVal)
    (ms : List MRec) (total sig : ℕ)
    (h : compareMapped th columnMap dates lookA lookB = .ok (ms, total, sig)) :
    sig = ms.length ∧
    (∀ m : MRec, m ∈ ms ↔
      ∃ c1 c2 d isDiff,
        (c1, c2) ∈ columnMap ∧ d ∈ dates ∧
        compare_values th (lookA c1 d) (lookB c2 d) = .ok (isDiff, m.difference) ∧
        truthyOB isDiff = true ∧ fltGt m.difference th = true ∧
        m = ⟨d, c1, lookA c1 d, c2, lookB c2 d, m.difference, true⟩) ∧
    (∀ m ∈ ms, fltGt m.difference th = true ∧ m.difference ≠ Flt.fin th) := by
  simp only [compareMapped] at h
  cases hmap : mapExcept (fun c => cellOutcome th lookA lookB c.1.1 c.1.2 c.2)
      (comparisonCells columnMap dates) with
  | error e =>
    rw [hmap, exceptBind_error] at h
    cases h
  | ok outs =>
    rw [hmap, exceptBind_ok] at h
    cases h
    refine ⟨rfl, ?_, ?_⟩
    · intro m
      have hmem : m ∈ outs.filterMap id ↔ Option.some m ∈ outs := by
        simp [List.mem_filterMap]
      rw [hmem, mapExcept_ok_iff _ _ _ hmap (Option.some m)]
      constructor
      · rintro ⟨⟨⟨cc1, cc2⟩, dd⟩, hc, hcell⟩
        obtain ⟨hcm, hdd⟩ := (comparisonCells_mem columnMap dates (cc1, cc2) dd).mp hc
        obtain ⟨isDiff, diff, hcv, hT, hG, hm⟩ :=
          (cellOutcome_ok_some_iff th lookA lookB cc1 cc2 dd m).mp hcell
        subst hm
        exact ⟨cc1, cc2, dd, isDiff, hcm, hdd, hcv, hT, hG, rfl⟩
      · rintro ⟨c1, c2, d, isDiff, hcm, hdd, hcv, hT, hG, hm⟩
        refine ⟨((c1, c2), d), ?_, ?_⟩
        · exact (comparisonCells_mem columnMap dates (c1, c2) d).mpr ⟨hcm, hdd⟩
        · exact (cellOutcome_ok_some_iff th lookA lookB c1 c2 d m).mpr
            ⟨isDiff, m.difference, hcv, hT, hG, hm⟩
    · intro m hm
      have hsome : Option.some m ∈ outs := by
        simpa [List.mem_filterMap] using hm
      obtain ⟨c, hc, hcell⟩ := (mapExcept_ok_iff _ _ _ hmap (Option.some m)).mp hsome
      obtain ⟨isDiff, diff, hcv, hT, hG, hmr⟩ :=
        (cellOutcome_ok_some_iff th lookA lookB c.1.1 c.1.2 c.2 m).mp hcell
      have hGm : fltGt m.difference th = true := by
        rw [hmr]
        exact hG
      refine ⟨hGm, ?_⟩
      intro hEq
      rw [hEq] at hGm
      simp only [fltGt, decide_eq_true_eq] at hGm
      exact lt_irrefl th hGm

/-- Witness for C1 at a concrete one-column, one-date comparison. -/
theorem compareMapped_mismatch_iff_witness :
    (1 : ℕ) = ([(⟨0, "A", .num 1, "B", .num 2, .fin 1, true⟩ : MRec)]).length :=
  (compareMapped_mismatch_iff defaultThreshold [("A", "B")] [0]
    (fun _ _ => .num 1) (fun _ _ => .num 2)
    [⟨0, "A", .num 1, "B", .num 2, .fin 1, true⟩] 1 1
    (by norm_num [compareMapped, mapExcept, comparisonCells, cellOutcome,
      compare_values, pdIsna, pyFloat, exceptBind_ok, fltSub, fltAbs, fltGt,
      ratAbs, truthyOB, defaultThreshold, List.filterMap_cons,
      List.filterMap_nil, id_eq])).1

/-- C2 counterexample: with the missing side being the float NaN (the
usual pandas missing marker), `compare_values` does NOT return
`abs(present − 0)`: `NaN or 0` is `NaN` because NaN is truthy, so the
returned difference is NaN rather than `abs(5 − 0) = 5`. -/
theorem compare_values_one_missing_counterexample :
    compare_values defaultThreshold .nan (.num 5) = .ok (Option.some true, Flt.nan) ∧
    Flt.nan ≠ Flt.fin (ratAbs (5 - 0)) := by
  constructor
  · norm_num [compare_values, pdIsna, pyOrZero, pyTruthy, pyFloat,
      exceptBind_ok, fltSub, fltAbs]
  · intro h
    cases h

/-- C2 amended: a cell with exactly one value missing is always reported
different, but the magnitude depends on how the missing value is
represented: a falsy `None` is coerced to `0`, giving
`abs(present − 0)`, while the truthy float NaN survives `or 0` and makes
the difference NaN. -/
theorem compare_values_one_missing (th q : ℚ) :
    compare_values th .none (.num q) = .ok (Option.some true, .fin (ratAbs q)) ∧
    compare_values th (.num q) .none = .ok (Option.some true, .fin (ratAbs q)) ∧
    compare_values th .nan (.num q) = .ok (Option.some true, Flt.nan) ∧
    compare_values th (.num q) .nan = .ok (Option.some true, Flt.nan) := by
  have hz : pyOrZero (.num q) = .num q := pyOrZero_num q
  have h0 : pyOrZero .none = PyVal.num 0 := rfl
  have hn : pyOrZero .nan = PyVal.nan := rfl
  refine ⟨?_, ?_, ?_, ?_⟩
  · simp [compare_values, pdIsna, h0, hz, pyFloat, exceptBind_ok, fltSub,
      fltAbs, ratAbs_zero_sub, ratAbs_neg]
  · simp [compare_values, pdIsna, h0, hz, pyFloat, exceptBind_ok, fltSub, fltAbs]
  · simp [compare_values, pdIsna, hn, hz, pyFloat, exceptBind_ok, fltSub, fltAbs]
  · simp [compare_values, pdIsna, hn, hz, pyFloat, exceptBind_ok, fltSub, fltAbs]

/-- C7 counterexample: a date column in which the first row parses and
the second does not is NOT handled by dropping the bad row: the whole
conversion raises (`pd.to_datetime` defaults to `errors='raise'`), the
dataframe comes back without a `Date` column, and the dataset fails
upstream even though a row parsed. -/
theorem parse_dates_drop_counterexample :
    gpDemo (.str "2024-01-01") = DParse.ok 20240101 ∧
    parse_dates gpDemo false [.str "2024-01-01", .str "garbage"] = Option.none ∧
    checkParsed (parse_dates gpDemo false [.str "2024-01-01", .str "garbage"]) =
      .error "Could not parse dates from files" := by
  refine ⟨by decide, by decide, by decide⟩

/-- C7 amended: rows are never individually dropped.  In the generic
branch the conversion fails as a whole exactly when SOME row fails to
parse (not only when no row parses), and on success every row is kept;
the object-dtype branch likewise keeps every row on success (rows
without an extractable `Week ending` date become NaT entries rather than
being dropped). -/
theorem parse_dates_failure_semantics (gp : PyVal → DParse) (col : List PyVal) :
    (parse_dates gp false col = Option.none ↔ ∃ v ∈ col, gp v = DParse.fail) ∧
    (∀ ds, parse_dates gp false col = Option.some ds → ds.length = col.length) ∧
    (∀ ds, parse_dates gp true col = Option.some ds → ds.length = col.length) := by
  refine ⟨?_, ?_, ?_⟩
  · exact seriesToDatetime_none_iff gp col
  · intro ds h
    exact seriesToDatetime_length gp col ds h
  · intro ds h
    cases col with
    | nil =>
      simp [parse_dates] at h
    | cons v0 rest =>
      by_cases hw : weekEndingTest v0
      · have h' : seriesToDatetime weekBranchCell (v0 :: rest) = Option.some ds := by
          simpa [parse_dates, hw] using h
        exact seriesToDatetime_length _ _ _ h'
      · have h' : seriesToDatetime gp (v0 :: rest) = Option.some ds := by
          simpa [parse_dates, hw] using h
        exact seriesToDatetime_length _ _ _ h'

/-- Witness for the amended C7 at a concrete fully-parsing column. -/
theorem parse_dates_failure_semantics_witness :
    ([Option.some 20240101, Option.some 20240108] : List (Option ℕ)).length =
      ([PyVal.str "2024-01-01", PyVal.str "2024-01-08"] : List PyVal).length :=
  (parse_dates_failure_semantics gpDemo
    [PyVal.str "2024-01-01", PyVal.str "2024-01-08"]).2.1
    [Option.some 20240101, Option.some 20240108] (by decide)

end KraftHeinzQC
